import Mathlib

/-!
Shallow embedding, in Lean 4, of the feedless browser content script
(src/unnamed/part_000) and its preference popup (src/popup.js).

The embedding models:
 - the defensive storage wrappers `safeGet` / `safeSet` (part_000 lines 20-65),
 - the resource-tracking registries and `cleanupResources` (lines 2-4, 68-179),
 - the visibility policy of `updateBlockerState` and of the mutation-observer
   reconciliation pass (lines 279-349, 650-777),
 - the throttle state of the mutation observer (lines 666-772),
 - the message-handler wired by `initFeedBlocker` (lines 245-266) and the
   initial preference read (lines 235-241).

JavaScript machine model used throughout: exceptions are explicit (`Except` or
a recorded `threw` flag), asynchronous callbacks are recorded as output lists,
the host timer API is a pending-set of timer ids, and `undefined` object fields
are `Option.none`.
-/

namespace Feedless

/-- The object delivered by a `chrome.storage.local.get` read of the two
preference keys (part_000 lines 235, 256): each key is either absent
(`undefined`, i.e. `none`) or holds a boolean. -/
structure StoreResult where
  feedBlockerEnabled : Option Bool
  newsBlockerEnabled : Option Bool
deriving DecidableEq, Repr

/-- The empty object the defensive layer passes to the callback on failure
(part_000 lines 31, 39: `callback(\x7b\x7d)`). -/
def emptyResult : StoreResult := ⟨none, none⟩

/-- The JavaScript ternary `v === undefined ? true : v` used for both
preference keys (part_000 lines 236-237, 257-258, 609, ...). -/
def jsDefaultTrue : Option Bool → Bool
  | none => true
  | some v => v

/-- Outcome of one dispatch of the underlying `chrome.storage.local.get`:
either the callback runs with no `lastError` and a result, or `lastError` is
set with the transient context-invalidated message, or `lastError` is set
with some other message, or the synchronous dispatch itself throws. -/
inductive GetAttempt where
  | ok (result : StoreResult)
  | transientErr
  | otherErr
  | throws
deriving DecidableEq, Repr

/-- Observable outcome of a `safeGet` call chain: the list of values passed to
the caller's callback (in order), and the list of scheduled retry delays. -/
structure GetOutcome where
  callbacks : List StoreResult
  retryDelays : List Nat
deriving DecidableEq, Repr

/-- Model of `safeGet(keys, callback, retries)` (part_000 lines 20-41).
`attempt i` is the behaviour of the i-th underlying storage dispatch.
 - if the dispatch throws, the catch (lines 37-40) invokes `callback(\x7b\x7d)`;
 - on `lastError` with the context-invalidated message while `retries > 0`,
   a retry is scheduled 100 ms later with `retries - 1` (line 26);
 - on any other `lastError` (or the transient one with no budget left) the
   callback receives the empty object (line 31);
 - otherwise the callback receives the result (line 35). -/
def safeGet (attempt : Nat → GetAttempt) : Nat → Nat → GetOutcome
  | 0, idx =>
    match attempt idx with
    | .throws => ⟨[emptyResult], []⟩
    | .ok r => ⟨[r], []⟩
    | .otherErr => ⟨[emptyResult], []⟩
    | .transientErr => ⟨[emptyResult], []⟩
  | retries + 1, idx =>
    match attempt idx with
    | .throws => ⟨[emptyResult], []⟩
    | .ok r => ⟨[r], []⟩
    | .otherErr => ⟨[emptyResult], []⟩
    | .transientErr =>
      let rest := safeGet attempt retries (idx + 1)
      ⟨rest.callbacks, 100 :: rest.retryDelays⟩

/-- Observable outcome of a `safeSet` call: the synchronous return value, whether
the caller's callback was invoked, and whether the write was persisted. -/
structure SetOutcome where
  retVal : Bool
  callbackInvoked : Bool
  persisted : Bool
deriving DecidableEq, Repr

/-- The body of `safeSet` inside its `try` block (part_000 lines 45-60):
 - if `isChromeAPIAvailable()` is false, return `false` without dispatching;
 - the synchronous dispatch of `chrome.storage.local.set` may throw;
 - otherwise `true` is returned; asynchronously, on `lastError` the completion
   callback logs and returns without invoking the caller's callback, else the
   caller's callback runs when it is a function. -/
def setBody (apiAvailable dispatchThrows asyncError cbIsFn : Bool) :
    Except String SetOutcome :=
  if !apiAvailable then
    .ok ⟨false, false, false⟩
  else if dispatchThrows then
    .error "Exception in safeSet"
  else if asyncError then
    .ok ⟨true, false, false⟩
  else
    .ok ⟨true, cbIsFn, true⟩

/-- Model of `safeSet(data, callback)` (part_000 lines 44-65): the `catch` converts any
exception from the body into the safe return `false` (lines 61-64). -/
def safeSet (apiAvailable dispatchThrows asyncError cbIsFn : Bool) : SetOutcome :=
  match setBody apiAvailable dispatchThrows asyncError cbIsFn with
  | .ok o => o
  | .error _ => ⟨false, false, false⟩

/-- Global runtime state: the three tracking registries (part_000 lines 2-4:
`observers`, `intervals`, `timeouts`) together with the host scheduler's live
sets (pending one-shot timers, active intervals, connected observers) and the
host's id counter. A one-shot timer can only fire while its id is in
`livePendingTimeouts`; an interval only ticks while in `liveIntervals`; an
observer only notifies while in `liveObservers`. -/
structure RtState where
  timeouts : List Nat
  intervals : List Nat
  observers : List Nat
  livePendingTimeouts : List Nat
  liveIntervals : List Nat
  liveObservers : List Nat
  nextId : Nat
deriving DecidableEq, Repr

def initState : RtState := ⟨[], [], [], [], [], [], 0⟩

/-- The host global `setTimeout`: schedules a one-shot timer in the host
scheduler. It performs no registry bookkeeping. -/
def rawSetTimeout (s : RtState) : RtState × Nat :=
  ({ s with livePendingTimeouts := s.livePendingTimeouts ++ [s.nextId],
            nextId := s.nextId + 1 }, s.nextId)

/-- Model of `safeSetTimeout(callback, delay)` (part_000 lines 68-92): schedules via the
host `setTimeout` and pushes the id onto the `timeouts` registry (line 86). -/
def safeSetTimeout (s : RtState) : RtState × Nat :=
  let p := rawSetTimeout s
  ({ p.1 with timeouts := p.1.timeouts ++ [p.2] }, p.2)

/-- The host global `setInterval`: registers an active interval with the host
scheduler, no registry bookkeeping. -/
def rawSetInterval (s : RtState) : RtState × Nat :=
  ({ s with liveIntervals := s.liveIntervals ++ [s.nextId],
            nextId := s.nextId + 1 }, s.nextId)

/-- Model of `safeSetInterval(callback, delay)` (part_000 lines 95-120): schedules via
the host `setInterval` and pushes the id onto the `intervals` registry
(line 114). -/
def safeSetInterval (s : RtState) : RtState × Nat :=
  let p := rawSetInterval s
  ({ p.1 with intervals := p.1.intervals ++ [p.2] }, p.2)

/-- Creation and tracking of a MutationObserver (part_000 lines 650, 780:
`new MutationObserver(...)` then `observers.push(observer)`). -/
def newTrackedObserver (s : RtState) : RtState × Nat :=
  ({ s with liveObservers := s.liveObservers ++ [s.nextId],
            observers := s.observers ++ [s.nextId],
            nextId := s.nextId + 1 }, s.nextId)

/-- The scheduling side effect of one `safeGet` attempt (part_000 lines 20-41):
when the dispatch reports the transient context-invalidated error and retry
budget remains, the retry is scheduled with the bare global `setTimeout`
(line 26: `setTimeout(() => safeGet(keys, callback, retries - 1), 100)`),
not with `safeSetTimeout`; no other attempt outcome schedules a timer. -/
def safeGetSchedule (attempt : GetAttempt) (retries : Nat) (s : RtState) : RtState :=
  match attempt, retries with
  | .transientErr, _ + 1 => (rawSetTimeout s).1
  | _, _ => s

/-- Model of `cleanupResources()` (part_000 lines 149-179). In registry order:
every id in the `intervals` registry is passed to `clearInterval` (each call
wrapped in its own try/catch) and the registry is reset to `[]`; likewise the
`timeouts` registry with `clearTimeout`; then every tracked observer gets
`obs.disconnect()` in its own try/catch and the `observers` registry is reset.
`clearInterval` / `clearTimeout` never throw on a numeric id, so every tracked
timer is removed from the host scheduler; `disconnectFails o = true` models a
(hypothetical) throw from `o.disconnect()`, which the per-item catch absorbs,
leaving that observer connected but not blocking the rest. -/
def cleanupResources (disconnectFails : Nat → Bool) (s : RtState) : RtState :=
  let s1 := { s with
    liveIntervals := s.liveIntervals.filter (fun id => !decide (id ∈ s.intervals)),
    intervals := [] }
  let s2 := { s1 with
    livePendingTimeouts := s1.livePendingTimeouts.filter (fun id => !decide (id ∈ s1.timeouts)),
    timeouts := [] }
  { s2 with
    liveObservers := s2.liveObservers.filter
      (fun o => !decide (o ∈ s2.observers) || disconnectFails o),
    observers := [] }

/-- Model of `DOMTokenList.add`: appends the token only when not already present. -/
def classAdd (c : String) (l : List String) : List String :=
  if c ∈ l then l else l ++ [c]

/-- Model of `DOMTokenList.remove`: removes the token from the list. -/
def classRemove (c : String) (l : List String) : List String :=
  l.filter (fun x => x ≠ c)

/-- A page element relevant to the visibility policy: the inline style
properties the script writes and the `data-hidden-by-focus-mode` marker
attribute. -/
structure Elem where
  display : String
  visibility : String
  opacity : String
  hiddenByFocusMode : Bool
deriving DecidableEq, Repr

/-- The page state the visibility policy reads and writes: the body class
list, the display style of the `#feed-replacement` element when it exists
(`none` when the element is absent from the document), and the elements
matched by the feed selector list and by the news selector list. -/
structure Dom where
  bodyClasses : List String
  replacementDisplay : Option String
  feedElems : List Elem
  newsElems : List Elem
deriving DecidableEq, Repr

/-- The hide branch of `applyChanges` inside `updateBlockerState`
(part_000 lines 313-318): `display: 'none'` plus the marker attribute. -/
def hideFeedElem (e : Elem) : Elem :=
  { e with display := "none", hiddenByFocusMode := true }

/-- The show branch of `applyChanges` inside `updateBlockerState`
(part_000 lines 319-327): restore display, visibility, opacity and remove
the marker attribute. -/
def showFeedElem (e : Elem) : Elem :=
  { e with display := "", visibility := "visible", opacity := "1",
           hiddenByFocusMode := false }

/-- Model of `applyChanges` inside `updateBlockerState(isEnabled)` (part_000 lines
286-335): toggles the two mutually exclusive body classes (add then remove,
lines 292-298), sets the replacement element's display (lines 301-306), and
maps the hide or show mutation over every matched feed element
(lines 310-328). -/
def applyChanges (isEnabled : Bool) (d : Dom) : Dom :=
  { d with
    bodyClasses :=
      if isEnabled then
        classRemove "feed-blocker-disabled" (classAdd "feed-blocker-active" d.bodyClasses)
      else
        classRemove "feed-blocker-active" (classAdd "feed-blocker-disabled" d.bodyClasses),
    replacementDisplay :=
      d.replacementDisplay.map (fun _ => if isEnabled then "flex" else "none"),
    feedElems := d.feedElems.map (if isEnabled then hideFeedElem else showFeedElem) }

/-- News-element mutation in the observer's reconciliation pass (part_000
lines 702-711): elements already carrying the marker are skipped
(`if (!element.hasAttribute('data-hidden-by-focus-mode'))`). -/
def observerHideNewsElem (e : Elem) : Elem :=
  if e.hiddenByFocusMode then e
  else { e with display := "none", visibility := "hidden", opacity := "0",
                hiddenByFocusMode := true }

/-- Feed-element hide mutation in the observer's reconciliation pass
(part_000 lines 726-733): unmarked elements only. -/
def observerHideFeedElem (e : Elem) : Elem :=
  if e.hiddenByFocusMode then e
  else { e with display := "none", hiddenByFocusMode := true }

/-- Feed-element show mutation in the observer's reconciliation pass
(part_000 lines 751-760): marked elements only. -/
def observerShowFeedElem (e : Elem) : Elem :=
  if e.hiddenByFocusMode then
    { e with display := "", visibility := "visible", opacity := "1",
             hiddenByFocusMode := false }
  else e

/-- One reconciliation pass of the mutation observer (part_000 lines
674-771), given the preference values the pass reads back: when news
blocking is enabled, add the `news-blocker-active` body class and hide
unmarked news elements (lines 679-715); then, depending on feed blocking,
either hide unmarked feed elements and show the replacement (lines 718-742)
or unmark-and-show feed elements and hide the replacement (lines 743-770). -/
def observerPass (feedEnabled newsEnabled : Bool) (d : Dom) : Dom :=
  let d1 :=
    if newsEnabled then
      { d with bodyClasses := classAdd "news-blocker-active" d.bodyClasses,
               newsElems := d.newsElems.map observerHideNewsElem }
    else d
  if feedEnabled then
    { d1 with
      bodyClasses :=
        classRemove "feed-blocker-disabled" (classAdd "feed-blocker-active" d1.bodyClasses),
      feedElems := d1.feedElems.map observerHideFeedElem,
      replacementDisplay := d1.replacementDisplay.map (fun _ => "flex") }
  else
    { d1 with
      bodyClasses :=
        classRemove "feed-blocker-active" (classAdd "feed-blocker-disabled" d1.bodyClasses),
      feedElems := d1.feedElems.map observerShowFeedElem,
      replacementDisplay := d1.replacementDisplay.map (fun _ => "none") }

/-- The mutation observer's throttle state (part_000 lines 666-772):
`timeoutField` is the `observer.timeout` property (a timer id, or `null`);
`pendingRecon` is the host scheduler's list of not-yet-fired reconciliation
timers as pairs of timer id and fire time; `passes` records the times at
which a reconciliation pass executed. -/
structure ThrottleState where
  timeoutField : Option Nat
  pendingRecon : List (Nat × Nat)
  passes : List Nat
  nextId : Nat
deriving DecidableEq, Repr

def throttleInit : ThrottleState := ⟨none, [], [], 0⟩

/-- Events on the throttle timeline: a mutation-observer notification at
time `t`, or the delivery of the earliest pending reconciliation timer. -/
inductive ObsEvent where
  | mutation (t : Nat)
  | fire
deriving DecidableEq, Repr

/-- One MutationObserver notification at time `t` (part_000 lines 666-672):
if `observer.timeout` is set, return without scheduling; otherwise schedule
a reconciliation pass 200 ms later via `safeSetTimeout` and store its id in
`observer.timeout`. -/
def onMutation (s : ThrottleState) (t : Nat) : ThrottleState :=
  match s.timeoutField with
  | some _ => s
  | none =>
    { s with timeoutField := some s.nextId,
             pendingRecon := s.pendingRecon ++ [(s.nextId, t + 200)],
             nextId := s.nextId + 1 }

/-- Delivery of the earliest pending reconciliation timer (part_000 lines
670-772): the callback first clears `observer.timeout` (line 671), then the
reconciliation pass runs. -/
def onFire (s : ThrottleState) : ThrottleState :=
  match s.pendingRecon with
  | [] => s
  | p :: rest =>
    { s with timeoutField := none, pendingRecon := rest,
             passes := s.passes ++ [p.2] }

def throttleStep (s : ThrottleState) : ObsEvent → ThrottleState
  | .mutation t => onMutation s t
  | .fire => onFire s

/-- The throttle state after processing a timeline of events from the
observer's initial state. -/
def throttleRun (events : List ObsEvent) : ThrottleState :=
  events.foldl throttleStep throttleInit

/-- The throttle invariant coupling `observer.timeout` with the host
scheduler: the field holds an id exactly when that timer is the sole
pending reconciliation timer. -/
def ThrottleCoupled (s : ThrottleState) : Prop :=
  (s.timeoutField = none ∧ s.pendingRecon = []) ∨
  (∃ id ft, s.timeoutField = some id ∧ s.pendingRecon = [(id, ft)])

/-- Inbound message shapes accepted by the `onMessage` listener
(part_000 lines 249-265). -/
inductive MsgAction where
  | toggleFeedBlocker (enabled : Bool)
  | toggleNewsBlocker (enabled : Bool)
  | getState
  | unknown
deriving DecidableEq, Repr

/-- Values passed to `sendResponse`. -/
inductive MsgResponse where
  | success
  | state (enabled newsEnabled : Bool)
deriving DecidableEq, Repr

/-- A persisted-store write performed by a handler branch. -/
inductive StoreWrite where
  | feed (b : Bool)
  | news (b : Bool)
deriving DecidableEq, Repr

/-- Observable outcome of one invocation of the message listener: the
`sendResponse` calls (synchronous or asynchronous), whether the listener
returned `true` (keeping the response channel open), the persisted-store
writes it dispatched, and whether an exception escaped the listener. -/
structure HandlerOutcome where
  responses : List MsgResponse
  keepsChannelOpen : Bool
  writes : List StoreWrite
  threw : Bool
deriving DecidableEq, Repr

/-- The `chrome.runtime.onMessage` listener registered by `initFeedBlocker`
(part_000 lines 245-266). `store` is the persisted state that the
`getState` branch's `safeGet` reads back (the read is assumed to succeed).
 - `toggleFeedBlocker`: `updateBlockerState(request.enabled)` persists
   `feedBlockerEnabled` via `safeSet` (line 283), then
   `sendResponse(\x7bsuccess: true\x7d)` runs (line 251);
 - `toggleNewsBlocker`: the branch calls `updateNewsBlockerState` (line
   253), but that function's definition (part_000 lines 456-466) lies
   inside the block comment opened at line 454 and closed at line 542, so
   no binding `updateNewsBlockerState` exists at runtime; the call throws a
   ReferenceError before `sendResponse` and before any store write;
 - `getState`: responds asynchronously with both preferences defaulted to
   `true` when absent (lines 256-263) and returns `true` (line 264);
 - no branch matches: the listener falls through and returns `undefined`. -/
def onMessage (apiAvailable : Bool) (store : StoreResult) : MsgAction → HandlerOutcome :=
  fun req =>
    if !apiAvailable then ⟨[], false, [], false⟩
    else
      match req with
      | .toggleFeedBlocker b => ⟨[.success], false, [.feed b], false⟩
      | .toggleNewsBlocker _ => ⟨[], false, [], true⟩
      | .getState =>
        ⟨[.state (jsDefaultTrue store.feedBlockerEnabled)
                 (jsDefaultTrue store.newsBlockerEnabled)], true, [], false⟩
      | .unknown => ⟨[], false, [], false⟩

/-- The initial preference read inside `initFeedBlocker` (part_000 lines
235-237): both keys default to `true` when `undefined`. -/
def initialPreferences (result : StoreResult) : Bool × Bool :=
  (jsDefaultTrue result.feedBlockerEnabled, jsDefaultTrue result.newsBlockerEnabled)

/-- A storage behaviour whose every dispatch throws synchronously. -/
def attemptThrows : Nat → GetAttempt := fun _ => .throws

/-- A storage behaviour that fails once with the transient signature and then
succeeds. -/
def attemptRetryThenOk : Nat → GetAttempt :=
  fun i => if i = 0 then .transientErr else .ok ⟨some true, some false⟩

/-- A storage behaviour whose every dispatch reports the transient error. -/
def attemptAllTransient : Nat → GetAttempt := fun _ => .transientErr

/-- A sample runtime state with one tracked resource of each kind and one
untracked live timer and interval. -/
def sampleRt : RtState := ⟨[1], [2], [3], [1, 7], [2, 8], [3, 9], 10⟩

/-- The observed behaviour of `MutationObserver.disconnect`: it does not
throw. -/
def noDisconnectFailure : Nat → Bool := fun _ => false

/-! Theorems. -/

theorem safeGet_callbacks_one (attempt : Nat → GetAttempt) (retries idx : Nat) :
    (safeGet attempt retries idx).callbacks.length = 1 := by
  induction retries generalizing idx with
  | zero => cases h : attempt idx <;> simp [safeGet, h]
  | succ r ih =>
    cases h : attempt idx
    case transientErr => simpa [safeGet, h] using ih (idx + 1)
    all_goals simp [safeGet, h]

/-- C3: a `safeGet` whose underlying store call fails with the transient
context-invalidated signature while retry budget remains is retried after a
100 ms delay; when the retry succeeds the callback receives the successful
result exactly once after one 100 ms delay, when the budget is exhausted the
callback receives the empty result exactly once, and on every behaviour of
the underlying store the callback runs exactly once — never zero times,
never twice. -/
theorem safeGet_retry_exactly_once :
    (∀ (attempt : Nat → GetAttempt) (retries idx : Nat),
      (safeGet attempt retries idx).callbacks.length = 1) ∧
    (∀ (attempt : Nat → GetAttempt) (r : StoreResult),
      attempt 0 = GetAttempt.transientErr → attempt 1 = GetAttempt.ok r →
      safeGet attempt 1 0 = ⟨[r], [100]⟩) ∧
    (∀ (attempt : Nat → GetAttempt) (retries idx : Nat),
      (∀ i, attempt i = GetAttempt.transientErr) →
      (safeGet attempt retries idx).callbacks = [emptyResult]) := by
  refine ⟨safeGet_callbacks_one, ?_, ?_⟩
  · intro attempt r h0 h1
    simp [safeGet, h0, h1]
  · intro attempt retries idx h
    induction retries generalizing idx with
    | zero => simp [safeGet, h idx]
    | succ n ih => simpa [safeGet, h idx] using ih (idx + 1)

/-- Witness for C3 at concrete store behaviours: one transient failure then
success yields the successful result once after a single 100 ms delay, and an
always-transient store yields the empty result once. -/
theorem safeGet_retry_exactly_once_witness :
    safeGet attemptRetryThenOk 1 0 = ⟨[⟨some true, some false⟩], [100]⟩ ∧
    (safeGet attemptAllTransient 1 0).callbacks = [emptyResult] :=
  ⟨safeGet_retry_exactly_once.2.1 attemptRetryThenOk ⟨some true, some false⟩ rfl rfl,
   safeGet_retry_exactly_once.2.2 attemptAllTransient 1 0 (fun _ => rfl)⟩

/-- C9: when the host runtime is unavailable — the availability guard reports
false (so `safeSet` returns `false` without dispatching) or the underlying
host call throws — `safeGet` still invokes its callback exactly once with the
empty result, `safeSet` returns `false`, and the exception raised inside
`safeSet`'s body is caught and converted to the safe return, never escaping
to a caller. -/
theorem defensive_layer_safe_defaults :
    (∀ (attempt : Nat → GetAttempt) (retries idx : Nat),
      attempt idx = GetAttempt.throws →
      safeGet attempt retries idx = ⟨[emptyResult], []⟩) ∧
    (∀ dispatchThrows asyncError cbIsFn,
      safeSet false dispatchThrows asyncError cbIsFn = ⟨false, false, false⟩) ∧
    (∀ asyncError cbIsFn,
      setBody true true asyncError cbIsFn = .error "Exception in safeSet" ∧
      safeSet true true asyncError cbIsFn = ⟨false, false, false⟩) := by
  refine ⟨?_, ?_, ?_⟩
  · intro attempt retries idx h
    cases retries <;> simp [safeGet, h]
  · intro dispatchThrows asyncError cbIsFn
    rfl
  · intro asyncError cbIsFn
    exact ⟨rfl, rfl⟩

/-- Witness for C9: a store whose dispatch always throws still reports the
empty result to the callback exactly once. -/
theorem defensive_layer_safe_defaults_witness :
    safeGet attemptThrows 1 0 = ⟨[emptyResult], []⟩ :=
  defensive_layer_safe_defaults.1 attemptThrows 1 0 rfl

/-- C10: when the synchronous dispatch of the store write does not throw,
`safeSet` returns `true` even if the asynchronous write later fails; in the
asynchronous-failure case the caller's callback is never invoked and nothing
is persisted, and the callback runs exactly when the write completes without
error (and a callback function was supplied) — so a `true` return does not
imply the preference was persisted. -/
theorem safeSet_true_without_persist (asyncError cbIsFn : Bool) :
    (safeSet true false asyncError cbIsFn).retVal = true ∧
    (asyncError = true →
      (safeSet true false asyncError cbIsFn).callbackInvoked = false ∧
      (safeSet true false asyncError cbIsFn).persisted = false) ∧
    ((safeSet true false asyncError cbIsFn).callbackInvoked = true ↔
      asyncError = false ∧ cbIsFn = true) := by
  cases asyncError <;> cases cbIsFn <;> simp [safeSet, setBody]

/-- Witness for C10: a write whose asynchronous completion fails returned
`true` yet invoked no callback and persisted nothing. -/
theorem safeSet_true_without_persist_witness :
    (safeSet true false true true).retVal = true ∧
    (safeSet true false true true).callbackInvoked = false ∧
    (safeSet true false true true).persisted = false :=
  ⟨(safeSet_true_without_persist true true).1,
   ((safeSet_true_without_persist true true).2.1 rfl).1,
   ((safeSet_true_without_persist true true).2.1 rfl).2⟩

/-- C1 (failing-input evaluation): an incoming
`action: toggleNewsBlocker` message received after initialization does not
update any policy, persists nothing, and sends no acknowledgement — the
branch calls `updateNewsBlockerState`, whose definition is commented out in
the source (part_000 lines 454-542), so the listener throws a ReferenceError
before `sendResponse` and before any store write. -/
theorem toggleNews_throws (b : Bool) (store : StoreResult) :
    onMessage true store (.toggleNewsBlocker b) =
      ⟨[], false, [], true⟩ := rfl

/-- C4: with the store containing `feedBlockerEnabled = false` and no
`newsBlockerEnabled` key, a `getState` message produces the asynchronous
response with `enabled = false` and `newsEnabled = true`, and the listener
returns `true` to keep the response channel open. -/
theorem getState_scenario_response :
    onMessage true ⟨some false, none⟩ .getState =
      ⟨[.state false true], true, [], false⟩ := rfl

/-- C5: when both preference keys are absent from the persisted store, the
initial read inside `initFeedBlocker` yields the fail-open defaults
`feedEnabled = true` and `newsEnabled = true`. -/
theorem initial_read_fail_open :
    initialPreferences emptyResult = (true, true) := rfl

/-- C6: after `cleanupResources`, all three registries are empty; every
tracked one-shot timer and every tracked interval is removed from the host
scheduler, so no tracked timer subsequently fires; every tracked observer
whose disconnect does not throw is disconnected — regardless of failures
while disconnecting any other observer — so no tracked observer subsequently
notifies; and a second call to `cleanupResources` leaves the state
unchanged. -/
theorem cleanupResources_teardown (s : RtState) (fails : Nat → Bool) :
    ((cleanupResources fails s).timeouts = [] ∧
     (cleanupResources fails s).intervals = [] ∧
     (cleanupResources fails s).observers = []) ∧
    (∀ id ∈ s.timeouts, id ∉ (cleanupResources fails s).livePendingTimeouts) ∧
    (∀ id ∈ s.intervals, id ∉ (cleanupResources fails s).liveIntervals) ∧
    (∀ o ∈ s.observers, fails o = false →
      o ∉ (cleanupResources fails s).liveObservers) ∧
    cleanupResources fails (cleanupResources fails s) = cleanupResources fails s := by
  obtain ⟨t, i, o, lt, li, lo, n⟩ := s
  refine ⟨⟨rfl, rfl, rfl⟩, ?_, ?_, ?_, ?_⟩
  · intro id hid
    simp [cleanupResources, List.mem_filter, hid]
  · intro id hid
    simp [cleanupResources, List.mem_filter, hid]
  · intro ob hob hfail
    simp [cleanupResources, List.mem_filter, hob, hfail]
  · simp [cleanupResources, List.filter_eq_self]

/-- Witness for C6: in a state with one tracked resource of each kind, the
tracked timer, interval and observer are all gone from the host scheduler
after teardown. -/
theorem cleanupResources_teardown_witness :
    (1 : Nat) ∉ (cleanupResources noDisconnectFailure sampleRt).livePendingTimeouts ∧
    (2 : Nat) ∉ (cleanupResources noDisconnectFailure sampleRt).liveIntervals ∧
    (3 : Nat) ∉ (cleanupResources noDisconnectFailure sampleRt).liveObservers :=
  ⟨(cleanupResources_teardown sampleRt noDisconnectFailure).2.1 1 (by decide),
   (cleanupResources_teardown sampleRt noDisconnectFailure).2.2.1 2 (by decide),
   (cleanupResources_teardown sampleRt noDisconnectFailure).2.2.2.1 3 (by decide) rfl⟩

/-- C2 counterexample: the retry delay scheduled by `safeGet` on a transient
failure (part_000 line 26) uses the bare global `setTimeout`: the scheduled
timer (id 0, from the initial state) is live in the host scheduler but absent
from the `timeouts` registry, and it is still live after `cleanupResources` —
a detached timer path, contradicting the claim. -/
theorem retry_timer_untracked_cex :
    0 ∈ (safeGetSchedule .transientErr 1 initState).livePendingTimeouts ∧
    0 ∉ (safeGetSchedule .transientErr 1 initState).timeouts ∧
    0 ∈ (cleanupResources noDisconnectFailure
          (safeGetSchedule .transientErr 1 initState)).livePendingTimeouts := by
  decide

/-- C2 (amended): timers created through the tracker's wrappers —
`safeSetTimeout` and `safeSetInterval` — are registered at creation and are
cancelled by `cleanupResources`; but the retry delay scheduled by `safeGet`
is created with the bare global `setTimeout`, is not registered, and survives
teardown. -/
theorem timer_tracking_amended (s : RtState) (h : s.nextId ∉ s.timeouts) :
    ((safeSetTimeout s).2 ∈ (safeSetTimeout s).1.timeouts ∧
      (safeSetTimeout s).2 ∉
        (cleanupResources noDisconnectFailure (safeSetTimeout s).1).livePendingTimeouts) ∧
    ((safeSetInterval s).2 ∈ (safeSetInterval s).1.intervals ∧
      (safeSetInterval s).2 ∉
        (cleanupResources noDisconnectFailure (safeSetInterval s).1).liveIntervals) ∧
    (s.nextId ∈ (safeGetSchedule .transientErr 1 s).livePendingTimeouts ∧
      s.nextId ∉ (safeGetSchedule .transientErr 1 s).timeouts ∧
      s.nextId ∈ (cleanupResources noDisconnectFailure
        (safeGetSchedule .transientErr 1 s)).livePendingTimeouts) := by
  obtain ⟨t, i, o, lt, li, lo, n⟩ := s
  simp only [RtState.nextId] at h
  refine ⟨⟨?_, ?_⟩, ⟨?_, ?_⟩, ?_, ?_, ?_⟩
  · simp [safeSetTimeout, rawSetTimeout]
  · simp [safeSetTimeout, rawSetTimeout, cleanupResources, List.mem_filter]
  · simp [safeSetInterval, rawSetInterval]
  · simp [safeSetInterval, rawSetInterval, cleanupResources, List.mem_filter]
  · simp [safeGetSchedule, rawSetTimeout]
  · simpa [safeGetSchedule, rawSetTimeout] using h
  · simp [safeGetSchedule, rawSetTimeout, cleanupResources, List.mem_filter, h]

/-- Witness for C2's amended statement at the initial state. -/
theorem timer_tracking_amended_witness :
    (safeSetTimeout initState).2 ∈ (safeSetTimeout initState).1.timeouts ∧
    (safeSetTimeout initState).2 ∉
      (cleanupResources noDisconnectFailure (safeSetTimeout initState).1).livePendingTimeouts :=
  (timer_tracking_amended initState (by decide)).1

theorem mem_classAdd_self (c : String) (l : List String) : c ∈ classAdd c l := by
  unfold classAdd
  split
  · assumption
  · simp

theorem mem_classAdd_of_mem {x : String} (c : String) {l : List String} (h : x ∈ l) :
    x ∈ classAdd c l := by
  unfold classAdd
  split
  · exact h
  · exact List.mem_append_left _ h

theorem classAdd_eq_of_mem {c : String} {l : List String} (h : c ∈ l) :
    classAdd c l = l := by
  unfold classAdd
  simp [h]

theorem mem_classRemove {x c : String} {l : List String} :
    x ∈ classRemove c l ↔ x ∈ l ∧ x ≠ c := by
  unfold classRemove
  simp [List.mem_filter]

theorem not_mem_classRemove_self (c : String) (l : List String) :
    c ∉ classRemove c l := by
  intro h
  exact (mem_classRemove.mp h).2 rfl

theorem classRemove_eq_of_not_mem {c : String} {l : List String} (h : c ∉ l) :
    classRemove c l = l := by
  unfold classRemove
  refine List.filter_eq_self.mpr (fun x hx => ?_)
  simp only [ne_eq, decide_not, Bool.not_eq_eq_eq_not, Bool.not_true, decide_eq_false_iff_not]
  intro he
  exact h (he ▸ hx)

theorem classRemove_classRemove (c : String) (l : List String) :
    classRemove c (classRemove c l) = classRemove c l :=
  classRemove_eq_of_not_mem (not_mem_classRemove_self c l)

theorem classPair_idem {a b : String} (hab : a ≠ b) (l : List String) :
    classRemove b (classAdd a (classRemove b (classAdd a l))) =
      classRemove b (classAdd a l) := by
  have ha : a ∈ classRemove b (classAdd a l) :=
    mem_classRemove.mpr ⟨mem_classAdd_self a l, hab⟩
  rw [classAdd_eq_of_mem ha, classRemove_classRemove]

theorem classTriple_idem {a b c : String} (hab : a ≠ b) (hcb : c ≠ b)
    (l : List String) :
    classRemove b (classAdd a (classAdd c
        (classRemove b (classAdd a (classAdd c l))))) =
      classRemove b (classAdd a (classAdd c l)) := by
  have hc : c ∈ classRemove b (classAdd a (classAdd c l)) :=
    mem_classRemove.mpr ⟨mem_classAdd_of_mem a (mem_classAdd_self c l), hcb⟩
  have ha : a ∈ classRemove b (classAdd a (classAdd c l)) :=
    mem_classRemove.mpr ⟨mem_classAdd_self a (classAdd c l), hab⟩
  rw [classAdd_eq_of_mem hc, classAdd_eq_of_mem ha, classRemove_classRemove]

theorem hideFeedElem_idem (e : Elem) : hideFeedElem (hideFeedElem e) = hideFeedElem e := rfl

theorem showFeedElem_idem (e : Elem) : showFeedElem (showFeedElem e) = showFeedElem e := rfl

theorem observerHideNewsElem_idem (e : Elem) :
    observerHideNewsElem (observerHideNewsElem e) = observerHideNewsElem e := by
  unfold observerHideNewsElem
  cases h : e.hiddenByFocusMode <;> simp [h]

theorem observerHideFeedElem_idem (e : Elem) :
    observerHideFeedElem (observerHideFeedElem e) = observerHideFeedElem e := by
  unfold observerHideFeedElem
  cases h : e.hiddenByFocusMode <;> simp [h]

theorem observerShowFeedElem_idem (e : Elem) :
    observerShowFeedElem (observerShowFeedElem e) = observerShowFeedElem e := by
  unfold observerShowFeedElem
  cases h : e.hiddenByFocusMode <;> simp [h]

theorem map_elem_idem {f : Elem → Elem} (hf : ∀ e, f (f e) = f e) (l : List Elem) :
    (l.map f).map f = l.map f := by
  rw [List.map_map]
  exact List.map_congr_left (fun a _ => hf a)

theorem option_const_map (c : String) (o : Option String) :
    ((o.map fun _ => c).map fun _ => c) = o.map fun _ => c := by
  cases o <;> rfl

theorem option_const_map_comp (c : String) (o : Option String) :
    Option.map ((fun _ => c) ∘ fun _ => c) o = Option.map (fun _ => c) o := by
  cases o <;> rfl

/-- C7: the feed visibility policy is idempotent. A second `applyChanges`
with the same enabled value on the DOM produced by the first changes
nothing, and a second observer reconciliation pass with the same preference
values on an already-reconciled DOM changes nothing. -/
theorem visibility_policy_idempotent :
    (∀ (b : Bool) (d : Dom), applyChanges b (applyChanges b d) = applyChanges b d) ∧
    (∀ (f n : Bool) (d : Dom),
      observerPass f n (observerPass f n d) = observerPass f n d) := by
  have h1 : ("feed-blocker-active" : String) ≠ "feed-blocker-disabled" := by decide
  have h2 : ("news-blocker-active" : String) ≠ "feed-blocker-disabled" := by decide
  have h3 : ("news-blocker-active" : String) ≠ "feed-blocker-active" := by decide
  constructor
  · intro b d
    obtain ⟨bc, rd, fe, ne⟩ := d
    cases b <;>
      simp [applyChanges, classPair_idem h1, classPair_idem h1.symm,
        map_elem_idem hideFeedElem_idem, map_elem_idem showFeedElem_idem,
        option_const_map, option_const_map_comp]
  · intro f n d
    obtain ⟨bc, rd, fe, ne⟩ := d
    cases f <;> cases n <;>
      simp [observerPass, classPair_idem h1, classPair_idem h1.symm,
        classTriple_idem h1 h2, classTriple_idem h1.symm h3,
        map_elem_idem observerHideNewsElem_idem,
        map_elem_idem observerHideFeedElem_idem,
        map_elem_idem observerShowFeedElem_idem, option_const_map, option_const_map_comp]

theorem throttle_coupled_init : ThrottleCoupled throttleInit := Or.inl ⟨rfl, rfl⟩

theorem throttle_coupled_step (s : ThrottleState) (e : ObsEvent)
    (h : ThrottleCoupled s) : ThrottleCoupled (throttleStep s e) := by
  obtain ⟨tf, pr, ps, ni⟩ := s
  simp only [ThrottleCoupled] at h ⊢
  cases e with
  | mutation t =>
    rcases h with ⟨hf, hp⟩ | ⟨id, ft, hf, hp⟩
    · subst hf; subst hp
      simp [throttleStep, onMutation]
    · subst hf; subst hp
      simp [throttleStep, onMutation]
  | fire =>
    rcases h with ⟨hf, hp⟩ | ⟨id, ft, hf, hp⟩
    · subst hf; subst hp
      simp [throttleStep, onFire]
    · subst hf; subst hp
      simp [throttleStep, onFire]

theorem throttle_coupled_foldl (evs : List ObsEvent) :
    ∀ (s : ThrottleState), ThrottleCoupled s →
      ThrottleCoupled (evs.foldl throttleStep s) := by
  induction evs with
  | nil => intro s h; exact h
  | cons e rest ih => intro s h; exact ih _ (throttle_coupled_step s e h)

theorem onMutation_of_some {s : ThrottleState} {id : Nat}
    (h : s.timeoutField = some id) (t : Nat) : onMutation s t = s := by
  unfold onMutation
  rw [h]

theorem foldl_mutation_skip (ts : List Nat) :
    ∀ (s : ThrottleState) (id : Nat), s.timeoutField = some id →
      (ts.map ObsEvent.mutation).foldl throttleStep s = s := by
  induction ts with
  | nil => intro s id _; rfl
  | cons t rest ih =>
    intro s id h
    simp only [List.map_cons, List.foldl_cons, throttleStep]
    rw [onMutation_of_some h]
    exact ih s id h

theorem throttle_burst (t : Nat) (rest : List Nat) :
    throttleRun ((t :: rest).map ObsEvent.mutation ++ [ObsEvent.fire]) =
      ⟨none, [], [t + 200], 1⟩ := by
  unfold throttleRun
  rw [List.foldl_append]
  simp only [List.map_cons, List.foldl_cons]
  have h1 : throttleStep throttleInit (ObsEvent.mutation t) =
      ⟨some 0, [(0, t + 200)], [], 1⟩ := rfl
  rw [h1, foldl_mutation_skip rest _ 0 rfl]
  rfl

/-- C8: the observer's throttle keeps at most one pending reconciliation
timer at any time, on every event timeline; and a burst of mutation
notifications all arriving before the first one's 200 ms timer fires
schedules exactly one reconciliation pass, which executes 200 ms after the
first notification of the burst. -/
theorem throttle_single_pending_pass :
    (∀ events : List ObsEvent, (throttleRun events).pendingRecon.length ≤ 1) ∧
    (∀ (t : Nat) (rest : List Nat),
      (throttleRun ((t :: rest).map ObsEvent.mutation ++ [ObsEvent.fire])).passes =
        [t + 200] ∧
      (throttleRun ((t :: rest).map ObsEvent.mutation ++ [ObsEvent.fire])).pendingRecon =
        []) := by
  constructor
  · intro events
    have h := throttle_coupled_foldl events throttleInit throttle_coupled_init
    simp only [ThrottleCoupled] at h
    show (events.foldl throttleStep throttleInit).pendingRecon.length ≤ 1
    rcases h with ⟨_, hp⟩ | ⟨id, ft, _, hp⟩ <;> rw [hp] <;> simp
  · intro t rest
    rw [throttle_burst]
    exact ⟨rfl, rfl⟩

end Feedless
